import Mathlib

/-!
A shallow embedding of the IBC ICS-04 packet lifecycle keeper
(`x/ibc/04-channel/keeper/packet.go`) and proofs about its five
operations: SendPacket, RecvPacket, PacketExecuted, AcknowledgePacket,
AcknowledgementExecuted and CleanupPacket.

The keeper's store accessors (get/set of sequence counters, packet
commitments and acknowledgements) are modelled as point lookups and
updates on an explicit `Store` record; the channel/connection registry,
the light-client registry and the proof verifier are external
collaborators modelled as read-only records passed into each call.
-/

namespace IBC

/-- Channel state enum of `x/ibc/04-channel/exported`. -/
inductive ChannelState
  | INIT
  | TRYOPEN
  | OPEN
  | CLOSED
deriving DecidableEq, Repr

/-- Channel ordering enum of `x/ibc/04-channel/exported`; `NONE` is the
zero value of the Go enum, neither ordered nor unordered. -/
inductive Order
  | NONE
  | UNORDERED
  | ORDERED
deriving DecidableEq, Repr

/-- Connection state enum of `x/ibc/03-connection/exported`. -/
inductive ConnectionState
  | UNINITIALIZED
  | INIT
  | TRYOPEN
  | OPEN
deriving DecidableEq, Repr

/-- Counterparty of a channel end: the port and channel identifiers on
the other chain. -/
structure Counterparty where
  portID : String
  channelID : String
deriving DecidableEq, Repr

/-- A channel end record as read from the registry
(`types.Channel` of `x/ibc/04-channel`). -/
structure Channel where
  state : ChannelState
  ordering : Order
  counterparty : Counterparty
  connectionHops : List String
  version : String
deriving DecidableEq, Repr

/-- A connection end record (`x/ibc/03-connection` exported interface:
only the state and client identifier are consumed by the packet code). -/
structure ConnectionEnd where
  state : ConnectionState
  clientID : String
deriving DecidableEq, Repr

/-- A client state; the packet code only consumes `GetLatestHeight`. -/
structure ClientState where
  latestHeight : Nat
deriving DecidableEq, Repr

/-- A packet (`exported.PacketI`): bytes are modelled as lists of
naturals. -/
structure Packet where
  sequence : Nat
  timeoutHeight : Nat
  sourcePort : String
  sourceChannel : String
  destPort : String
  destChannel : String
  data : List Nat
deriving DecidableEq, Repr

/-- The error values returned by the packet keeper
(`types.Err...` of `x/ibc/04-channel`, plus the connection and client
errors it propagates). `commitmentVerificationFailed` stands for any
error wrapped from the proof verifier. -/
inductive ChannelError
  | channelNotFound
  | invalidChannelState
  | invalidPacket
  | connectionNotFound
  | invalidConnectionState
  | consensusStateNotFound
  | packetTimeout
  | sequenceSendNotFound
  | sequenceReceiveNotFound
  | commitmentVerificationFailed
  | invalidChannelOrdering
deriving DecidableEq, Repr

/-- The keeper's KV store restricted to the four keyspaces the packet
code touches, each keyed as in the source
(`nextSequenceSend(port,channel)`, `nextSequenceRecv(port,channel)`,
`packetCommitment(port,channel,sequence)`,
`packetAcknowledgement(port,channel,sequence)`). `none` models an
absent key; Go's nil byte slice from `GetPacketCommitment` on an absent
key is modelled as `none`. -/
structure Store where
  nextSequenceSend : String → String → Option Nat
  nextSequenceRecv : String → String → Option Nat
  packetCommitment : String → String → Nat → Option (List Nat)
  packetAcknowledgement : String → String → Nat → Option (List Nat)

/-- `SetNextSequenceSend`: point update of the next-send counter. -/
def Store.setNextSequenceSend (s : Store) (port chan : String) (n : Nat) : Store :=
  { s with nextSequenceSend := fun a b =>
      if a = port ∧ b = chan then some n else s.nextSequenceSend a b }

/-- `SetNextSequenceRecv`: point update of the next-receive counter. -/
def Store.setNextSequenceRecv (s : Store) (port chan : String) (n : Nat) : Store :=
  { s with nextSequenceRecv := fun a b =>
      if a = port ∧ b = chan then some n else s.nextSequenceRecv a b }

/-- `SetPacketCommitment`: point update of the commitment keyspace. -/
def Store.setPacketCommitment (s : Store) (port chan : String) (seq : Nat)
    (c : List Nat) : Store :=
  { s with packetCommitment := fun a b n =>
      if a = port ∧ b = chan ∧ n = seq then some c else s.packetCommitment a b n }

/-- `deletePacketCommitment`: point deletion of the commitment keyspace. -/
def Store.deletePacketCommitment (s : Store) (port chan : String) (seq : Nat) : Store :=
  { s with packetCommitment := fun a b n =>
      if a = port ∧ b = chan ∧ n = seq then none else s.packetCommitment a b n }

/-- `SetPacketAcknowledgement`: point update of the acknowledgement
keyspace. -/
def Store.setPacketAcknowledgement (s : Store) (port chan : String) (seq : Nat)
    (c : List Nat) : Store :=
  { s with packetAcknowledgement := fun a b n =>
      if a = port ∧ b = chan ∧ n = seq then some c else s.packetAcknowledgement a b n }

/-- The external registries consulted by the packet code: channel ends
(keyed by port and channel), connection ends (keyed by connection id),
client states (keyed by client id), and the chain's current block
height (`ctx.BlockHeight()`). -/
structure Env where
  channels : String → String → Option Channel
  connections : String → Option ConnectionEnd
  clients : String → Option ClientState
  blockHeight : Nat

/-- Opaque proof data handed to the verifier. -/
abbrev CommitmentProof := Nat

/-- The proof verifier interface of the connection keeper
(`VerifyPacketCommitment`, `VerifyPacketAcknowledgement`,
`VerifyNextSequenceRecv`); `true` means the proof checks out. -/
structure Verifier where
  verifyPacketCommitment :
    ConnectionEnd → Nat → CommitmentProof → String → String → Nat → List Nat → Bool
  verifyPacketAcknowledgement :
    ConnectionEnd → Nat → CommitmentProof → String → String → Nat → List Nat → Bool
  verifyNextSequenceRecv :
    ConnectionEnd → Nat → CommitmentProof → String → String → Nat → Bool

/-- Modelled from the spec: `types.CommitPacket` (not under `src/`), the
deterministic digest of packet data. The spec's commitment round-trip
property says the digest of two payloads is equal iff the payloads are,
so the digest is modelled as an injective encoding; like a real hash it
is never empty, so it never equals the absent-key value. -/
def commitPacket (data : List Nat) : List Nat :=
  0 :: data

/-- Modelled from the spec: `types.CommitAcknowledgement` (not under
`src/`), the digest of acknowledgement bytes; an absent acknowledgement
commits to a fixed sentinel distinguishable from every present one. -/
def commitAcknowledgement : Option (List Nat) → List Nat
  | none => [1]
  | some a => 0 :: a

/-- Modelled from the spec: `Packet.ValidateBasic` (not under `src/`),
the structural validation of a packet — non-empty identifiers, sequence
strictly positive, data non-empty; failure is `InvalidPacket`. -/
def validateBasic (p : Packet) : Option ChannelError :=
  if p.sourcePort = "" ∨ p.sourceChannel = "" ∨ p.destPort = "" ∨ p.destChannel = "" then
    some .invalidPacket
  else if p.sequence = 0 then
    some .invalidPacket
  else if p.data = [] then
    some .invalidPacket
  else
    none

/-- `Keeper.SendPacket` from `x/ibc/04-channel/keeper/packet.go`,
translated check by check. The returned store carries every write the
call performed before returning; `channel.ConnectionHops[0]` is modelled
as `headD ""` under the registry invariant that hops are non-empty. -/
def sendPacket (env : Env) (s : Store) (p : Packet) :
    Except ChannelError Unit × Store :=
  match validateBasic p with
  | some e => (.error e, s)
  | none =>
  match env.channels p.sourcePort p.sourceChannel with
  | none => (.error .channelNotFound, s)
  | some channel =>
  if channel.state = .CLOSED then
    (.error .invalidChannelState, s)
  else if p.destPort ≠ channel.counterparty.portID then
    (.error .invalidPacket, s)
  else if p.destChannel ≠ channel.counterparty.channelID then
    (.error .invalidPacket, s)
  else
  match env.connections (channel.connectionHops.headD "") with
  | none => (.error .connectionNotFound, s)
  | some connectionEnd =>
  if connectionEnd.state = .UNINITIALIZED then
    (.error .invalidConnectionState, s)
  else
  match env.clients connectionEnd.clientID with
  | none => (.error .consensusStateNotFound, s)
  | some clientState =>
  if p.timeoutHeight ≤ clientState.latestHeight then
    (.error .packetTimeout, s)
  else
  match s.nextSequenceSend p.sourcePort p.sourceChannel with
  | none => (.error .sequenceSendNotFound, s)
  | some nextSeq =>
  if p.sequence ≠ nextSeq then
    (.error .invalidPacket, s)
  else
    (.ok (),
      (s.setNextSequenceSend p.sourcePort p.sourceChannel (nextSeq + 1)).setPacketCommitment
        p.sourcePort p.sourceChannel p.sequence (commitPacket p.data))

/-- `Keeper.RecvPacket` from `x/ibc/04-channel/keeper/packet.go`. The
function performs no store writes; the store is returned unchanged on
every path, mirroring the source. -/
def recvPacket (env : Env) (v : Verifier) (s : Store) (p : Packet)
    (proof : CommitmentProof) (proofHeight : Nat) :
    Except ChannelError Packet × Store :=
  match env.channels p.destPort p.destChannel with
  | none => (.error .channelNotFound, s)
  | some channel =>
  if channel.state ≠ .OPEN then
    (.error .invalidChannelState, s)
  else if p.sourcePort ≠ channel.counterparty.portID then
    (.error .invalidPacket, s)
  else if p.sourceChannel ≠ channel.counterparty.channelID then
    (.error .invalidPacket, s)
  else
  match env.connections (channel.connectionHops.headD "") with
  | none => (.error .connectionNotFound, s)
  | some connectionEnd =>
  if connectionEnd.state ≠ .OPEN then
    (.error .invalidConnectionState, s)
  else if p.timeoutHeight ≤ env.blockHeight then
    (.error .packetTimeout, s)
  else if ¬ v.verifyPacketCommitment connectionEnd proofHeight proof
      p.sourcePort p.sourceChannel p.sequence (commitPacket p.data) then
    (.error .commitmentVerificationFailed, s)
  else
    (.ok p, s)

/-- `Keeper.PacketExecuted` from `x/ibc/04-channel/keeper/packet.go`.
Note the order of effects of the source: the acknowledgement is written
(when an acknowledgement is present or the channel is unordered)
before the ordered-channel sequence checks run, so the error paths of
the ordered branch return a store that already contains that write. -/
def packetExecuted (env : Env) (s : Store) (p : Packet)
    (acknowledgement : Option (List Nat)) :
    Except ChannelError Unit × Store :=
  match env.channels p.destPort p.destChannel with
  | none => (.error .channelNotFound, s)
  | some channel =>
  if channel.state ≠ .OPEN then
    (.error .invalidChannelState, s)
  else
    let s1 :=
      if acknowledgement.isSome ∨ channel.ordering = .UNORDERED then
        s.setPacketAcknowledgement p.destPort p.destChannel p.sequence
          (commitAcknowledgement acknowledgement)
      else s
    if channel.ordering = .ORDERED then
      match s1.nextSequenceRecv p.destPort p.destChannel with
      | none => (.error .sequenceReceiveNotFound, s1)
      | some nextSeq =>
        if p.sequence ≠ nextSeq then
          (.error .invalidPacket, s1)
        else
          (.ok (), s1.setNextSequenceRecv p.destPort p.destChannel (nextSeq + 1))
    else
      (.ok (), s1)

/-- `Keeper.AcknowledgePacket` from `x/ibc/04-channel/keeper/packet.go`.
No store writes; the source compares the stored commitment with
`bytes.Equal` against `CommitPacket(data)` (an absent key yields a nil
slice, which never equals the non-empty digest). -/
def acknowledgePacket (env : Env) (v : Verifier) (s : Store) (p : Packet)
    (acknowledgement : List Nat) (proof : CommitmentProof) (proofHeight : Nat) :
    Except ChannelError Packet × Store :=
  match env.channels p.sourcePort p.sourceChannel with
  | none => (.error .channelNotFound, s)
  | some channel =>
  if channel.state ≠ .OPEN then
    (.error .invalidChannelState, s)
  else if p.sourcePort ≠ channel.counterparty.portID then
    (.error .invalidPacket, s)
  else if p.sourceChannel ≠ channel.counterparty.channelID then
    (.error .invalidPacket, s)
  else
  match env.connections (channel.connectionHops.headD "") with
  | none => (.error .connectionNotFound, s)
  | some connectionEnd =>
  if connectionEnd.state ≠ .OPEN then
    (.error .invalidConnectionState, s)
  else if s.packetCommitment p.sourcePort p.sourceChannel p.sequence
      ≠ some (commitPacket p.data) then
    (.error .invalidPacket, s)
  else if ¬ v.verifyPacketAcknowledgement connectionEnd proofHeight proof
      p.destPort p.destChannel p.sequence acknowledgement then
    (.error .commitmentVerificationFailed, s)
  else
    (.ok p, s)

/-- `Keeper.AcknowledgementExecuted` from
`x/ibc/04-channel/keeper/packet.go`: deletes the sender-side packet
commitment; infallible. -/
def acknowledgementExecuted (s : Store) (p : Packet) : Store :=
  s.deletePacketCommitment p.sourcePort p.sourceChannel p.sequence

/-- Result of `CleanupPacket`: a normal return (packet plus resulting
store), an error return (store as it stood at the return), or the fatal
outcome modelling the Go panic in the default ordering branch. -/
inductive CleanupResult
  | ok (p : Packet) (s : Store)
  | err (e : ChannelError) (s : Store)
  | fatal (e : ChannelError)

/-- `Keeper.CleanupPacket` from `x/ibc/04-channel/keeper/packet.go`.
The default branch of the ordering switch panics in the source; it is
modelled as the `fatal` result. Note the source checks that the
first-hop connection exists but, unlike RecvPacket and
AcknowledgePacket, imposes no condition on its state. -/
def cleanupPacket (env : Env) (v : Verifier) (s : Store) (p : Packet)
    (proof : CommitmentProof) (proofHeight : Nat) (nextSequenceRecv : Nat)
    (acknowledgement : List Nat) : CleanupResult :=
  match env.channels p.sourcePort p.sourceChannel with
  | none => .err .channelNotFound s
  | some channel =>
  if channel.state ≠ .OPEN then
    .err .invalidChannelState s
  else if p.destPort ≠ channel.counterparty.portID then
    .err .invalidPacket s
  else if p.destChannel ≠ channel.counterparty.channelID then
    .err .invalidPacket s
  else
  match env.connections (channel.connectionHops.headD "") with
  | none => .err .connectionNotFound s
  | some connectionEnd =>
  if nextSequenceRecv ≤ p.sequence then
    .err .invalidPacket s
  else if s.packetCommitment p.sourcePort p.sourceChannel p.sequence
      ≠ some (commitPacket p.data) then
    .err .invalidPacket s
  else
  match channel.ordering with
  | .ORDERED =>
      if ¬ v.verifyNextSequenceRecv connectionEnd proofHeight proof
          p.destPort p.destChannel nextSequenceRecv then
        .err .commitmentVerificationFailed s
      else
        .ok p (s.deletePacketCommitment p.sourcePort p.sourceChannel p.sequence)
  | .UNORDERED =>
      if ¬ v.verifyPacketAcknowledgement connectionEnd proofHeight proof
          p.destPort p.destChannel p.sequence acknowledgement then
        .err .commitmentVerificationFailed s
      else
        .ok p (s.deletePacketCommitment p.sourcePort p.sourceChannel p.sequence)
  | .NONE => .fatal .invalidChannelOrdering

/-! ### Concrete sample data used by witnesses and counterexamples -/

/-- The store with all four keyspaces empty. -/
def emptyStore : Store :=
  { nextSequenceSend := fun _ _ => none
    nextSequenceRecv := fun _ _ => none
    packetCommitment := fun _ _ _ => none
    packetAcknowledgement := fun _ _ _ => none }

/-- A sample packet flowing from channel `cA` to channel `cB` on port
`pt`. -/
def samplePacket : Packet :=
  { sequence := 1, timeoutHeight := 100
    sourcePort := "pt", sourceChannel := "cA"
    destPort := "pt", destChannel := "cB"
    data := [7] }

/-- The send-side channel end at `(pt, cA)`, parameterized by state and
ordering, whose counterparty is `(pt, cB)`. -/
def chanA (st : ChannelState) (o : Order) : Channel :=
  { state := st, ordering := o
    counterparty := { portID := "pt", channelID := "cB" }
    connectionHops := ["cn"], version := "1" }

/-- The receive-side channel end at `(pt, cB)`, parameterized by state
and ordering, whose counterparty is `(pt, cA)`. -/
def chanB (st : ChannelState) (o : Order) : Channel :=
  { state := st, ordering := o
    counterparty := { portID := "pt", channelID := "cA" }
    connectionHops := ["cn"], version := "1" }

/-- A registry with the send-side channel in the given state/ordering at
`(pt, cA)`, a connection `cn` in the given state, and a client `cl` at
height 10. -/
def envA (st : ChannelState) (o : Order) (cs : ConnectionState) : Env :=
  { channels := fun a b => if a = "pt" ∧ b = "cA" then some (chanA st o) else none
    connections := fun c => if c = "cn" then some { state := cs, clientID := "cl" } else none
    clients := fun c => if c = "cl" then some { latestHeight := 10 } else none
    blockHeight := 10 }

/-- A registry with the receive-side channel in the given state/ordering
at `(pt, cB)`, a connection `cn` in the given state, and a client `cl`
at height 10. -/
def envB (st : ChannelState) (o : Order) (cs : ConnectionState) : Env :=
  { channels := fun a b => if a = "pt" ∧ b = "cB" then some (chanB st o) else none
    connections := fun c => if c = "cn" then some { state := cs, clientID := "cl" } else none
    clients := fun c => if c = "cl" then some { latestHeight := 10 } else none
    blockHeight := 10 }

/-- A verifier that accepts every proof. -/
def acceptAll : Verifier :=
  { verifyPacketCommitment := fun _ _ _ _ _ _ _ => true
    verifyPacketAcknowledgement := fun _ _ _ _ _ _ _ => true
    verifyNextSequenceRecv := fun _ _ _ _ _ _ => true }

/-! ### Helper lemmas: behaviour of error paths -/

/-- Either `sendPacket` succeeds, or it hands back the store unchanged. -/
theorem sendPacket_result (env : Env) (s : Store) (p : Packet) :
    (sendPacket env s p).1 = .ok () ∨ (sendPacket env s p).2 = s := by
  unfold sendPacket
  (repeat' split) <;> simp

/-- Every error return of `sendPacket` hands back the store unchanged. -/
theorem sendPacket_error_store (env : Env) (s : Store) (p : Packet)
    (e : ChannelError) (h : (sendPacket env s p).1 = .error e) :
    (sendPacket env s p).2 = s := by
  rcases sendPacket_result env s p with h1 | h2
  · rw [h] at h1; cases h1
  · exact h2

/-- `recvPacket` returns the store unchanged on every path. -/
theorem recvPacket_store_eq (env : Env) (v : Verifier) (s : Store) (p : Packet)
    (proof : CommitmentProof) (proofHeight : Nat) :
    (recvPacket env v s p proof proofHeight).2 = s := by
  unfold recvPacket
  (repeat' split) <;> rfl

/-- `acknowledgePacket` returns the store unchanged on every path. -/
theorem acknowledgePacket_store_eq (env : Env) (v : Verifier) (s : Store)
    (p : Packet) (ack : List Nat) (proof : CommitmentProof) (proofHeight : Nat) :
    (acknowledgePacket env v s p ack proof proofHeight).2 = s := by
  unfold acknowledgePacket
  (repeat' split) <;> rfl

/-- Every error return of `cleanupPacket` hands back the store
unchanged. -/
theorem cleanupPacket_err_store (env : Env) (v : Verifier) (s : Store) (p : Packet)
    (proof : CommitmentProof) (proofHeight nsr : Nat) (ack : List Nat)
    (e : ChannelError) (s2 : Store)
    (h : cleanupPacket env v s p proof proofHeight nsr ack = .err e s2) :
    s2 = s := by
  unfold cleanupPacket at h
  (repeat' split at h) <;> (first | (cases h; rfl) | cases h)

/-- Under the hypotheses that `sendPacket`'s structural, channel,
counterparty, connection, client and timeout checks all pass, the call
reduces to the final sequence check and its writes, for any store that
agrees on nothing (the checks read only the registries). -/
theorem sendPacket_reduces (env : Env) (p : Packet) (channel : Channel)
    (connectionEnd : ConnectionEnd) (clientState : ClientState)
    (hv : validateBasic p = none)
    (hch : env.channels p.sourcePort p.sourceChannel = some channel)
    (hst : channel.state ≠ .CLOSED)
    (hdp : p.destPort = channel.counterparty.portID)
    (hdc : p.destChannel = channel.counterparty.channelID)
    (hco : env.connections (channel.connectionHops.headD "") = some connectionEnd)
    (hcs : connectionEnd.state ≠ .UNINITIALIZED)
    (hcl : env.clients connectionEnd.clientID = some clientState)
    (hto : clientState.latestHeight < p.timeoutHeight) (st : Store) :
    sendPacket env st p =
      match st.nextSequenceSend p.sourcePort p.sourceChannel with
      | none => (.error .sequenceSendNotFound, st)
      | some nextSeq =>
        if p.sequence ≠ nextSeq then
          (.error .invalidPacket, st)
        else
          (.ok (),
            (st.setNextSequenceSend p.sourcePort p.sourceChannel
              (nextSeq + 1)).setPacketCommitment
              p.sourcePort p.sourceChannel p.sequence (commitPacket p.data)) := by
  have h2 : ¬ p.destPort ≠ channel.counterparty.portID := by simp [hdp]
  have h3 : ¬ p.destChannel ≠ channel.counterparty.channelID := by simp [hdc]
  have h5 : ¬ p.timeoutHeight ≤ clientState.latestHeight := Nat.not_le.mpr hto
  simp only [sendPacket, hv, hch, hco, hcl, if_neg hst, if_neg h2, if_neg h3,
    if_neg hcs, if_neg h5]

/-- C1: when the channel, counterparty, connection, client and timeout
checks of `SendPacket` pass (and the packet is structurally valid),
the call succeeds exactly when `packet.sequence` equals the stored
`next_sequence_send` — an absent counter yields `SequenceSendNotFound`,
any other sequence yields `InvalidPacket` — and on success the counter
becomes its old value plus one and the packet commitment is set to
`commit_packet(packet.data)`, so re-sending the same sequence fails
with `InvalidPacket`: a given sequence can be sent at most once. -/
theorem sendPacket_sequence_correct
    (env : Env) (s : Store) (p : Packet) (channel : Channel)
    (connectionEnd : ConnectionEnd) (clientState : ClientState)
    (hv : validateBasic p = none)
    (hch : env.channels p.sourcePort p.sourceChannel = some channel)
    (hst : channel.state ≠ .CLOSED)
    (hdp : p.destPort = channel.counterparty.portID)
    (hdc : p.destChannel = channel.counterparty.channelID)
    (hco : env.connections (channel.connectionHops.headD "") = some connectionEnd)
    (hcs : connectionEnd.state ≠ .UNINITIALIZED)
    (hcl : env.clients connectionEnd.clientID = some clientState)
    (hto : clientState.latestHeight < p.timeoutHeight) :
    (s.nextSequenceSend p.sourcePort p.sourceChannel = none →
      sendPacket env s p = (.error .sequenceSendNotFound, s)) ∧
    (∀ n, s.nextSequenceSend p.sourcePort p.sourceChannel = some n →
      (p.sequence ≠ n → sendPacket env s p = (.error .invalidPacket, s)) ∧
      (p.sequence = n →
        (sendPacket env s p).1 = .ok () ∧
        (sendPacket env s p).2.nextSequenceSend p.sourcePort p.sourceChannel
          = some (n + 1) ∧
        (sendPacket env s p).2.packetCommitment p.sourcePort p.sourceChannel p.sequence
          = some (commitPacket p.data) ∧
        sendPacket env (sendPacket env s p).2 p
          = (.error .invalidPacket, (sendPacket env s p).2))) := by
  have key := sendPacket_reduces env p channel connectionEnd clientState
    hv hch hst hdp hdc hco hcs hcl hto
  refine ⟨fun hn => by rw [key s, hn], fun n hn => ⟨fun hne => by rw [key s, hn]; simp [hne], fun hseq => ?_⟩⟩
  have hrun : sendPacket env s p =
      (.ok (),
        (s.setNextSequenceSend p.sourcePort p.sourceChannel (n + 1)).setPacketCommitment
          p.sourcePort p.sourceChannel p.sequence (commitPacket p.data)) := by
    rw [key s, hn]
    simp [hseq]
  have hnss : (sendPacket env s p).2.nextSequenceSend p.sourcePort p.sourceChannel
      = some (n + 1) := by
    rw [hrun]
    simp [Store.setPacketCommitment, Store.setNextSequenceSend]
  refine ⟨by rw [hrun], hnss, by rw [hrun]; simp [Store.setPacketCommitment], ?_⟩
  rw [key (sendPacket env s p).2, hnss]
  simp [hseq]

/-- The result of `packetExecuted` is a success, or an error with the
store unchanged, or an error with the store changed only by the
acknowledgement write that precedes the ordered-channel sequence
checks. -/
theorem packetExecuted_shape (env : Env) (s : Store) (p : Packet)
    (oack : Option (List Nat)) :
    (packetExecuted env s p oack).1 = .ok () ∨
    (packetExecuted env s p oack).2 = s ∨
    (packetExecuted env s p oack).2
      = s.setPacketAcknowledgement p.destPort p.destChannel p.sequence
          (commitAcknowledgement oack) := by
  unfold packetExecuted
  (repeat' split) <;> (try simp) <;> ((repeat' split) <;> simp)

/-- C1 witness: channel `(pt, cA)` open and ordered, counter at 1;
sending the sequence-1 sample packet succeeds. -/
theorem sendPacket_sequence_correct_witness :
    (sendPacket (envA .OPEN .ORDERED .OPEN)
      { emptyStore with nextSequenceSend := fun a b =>
          if a = "pt" ∧ b = "cA" then some 1 else none } samplePacket).1 = .ok () := by
  have h := sendPacket_sequence_correct (envA .OPEN .ORDERED .OPEN)
    { emptyStore with nextSequenceSend := fun a b =>
        if a = "pt" ∧ b = "cA" then some 1 else none } samplePacket
    (chanA .OPEN .ORDERED) { state := .OPEN, clientID := "cl" } { latestHeight := 10 }
    rfl rfl (by decide) rfl rfl rfl (by decide) rfl (by decide)
  exact ((h.2 1 rfl).2 rfl).1

/-- C2 counterexample: on an ordered open channel with no
`next_sequence_recv` counter, `PacketExecuted` with an acknowledgement
rejects with `SequenceReceiveNotFound`, yet the returned store carries
the acknowledgement write — a partial write survives the rejected
call, contradicting the claim that a rejected call leaves the store
identical to before (and in particular that a rejected `PacketExecuted`
on an ordered channel leaves the acknowledgement keyspace unchanged). -/
theorem packet_atomicity_cex :
    (packetExecuted (envB .OPEN .ORDERED .OPEN) emptyStore samplePacket (some [9])).1
      = .error .sequenceReceiveNotFound ∧
    emptyStore.packetAcknowledgement "pt" "cB" 1 = none ∧
    (packetExecuted (envB .OPEN .ORDERED .OPEN) emptyStore samplePacket
      (some [9])).2.packetAcknowledgement "pt" "cB" 1 = some [0, 9] :=
  ⟨rfl, rfl, rfl⟩

/-- C2 amended: a rejected `SendPacket`, `RecvPacket`,
`AcknowledgePacket` or `CleanupPacket` leaves the store completely
unchanged (`RecvPacket` and `AcknowledgePacket` never change it at
all); a rejected `PacketExecuted` leaves the sequence counters and the
commitment keyspace unchanged and changes at most the single
`packet_acknowledgement` entry at
`(dest_port, dest_channel, sequence)`, the write the source performs
before its ordered-channel sequence checks. -/
theorem packet_ops_atomicity_amended (env : Env) (v : Verifier) (s : Store)
    (p : Packet) (ack : List Nat) (oack : Option (List Nat))
    (proof : CommitmentProof) (proofHeight nsr : Nat) (e : ChannelError) :
    ((sendPacket env s p).1 = .error e → (sendPacket env s p).2 = s) ∧
    (recvPacket env v s p proof proofHeight).2 = s ∧
    (acknowledgePacket env v s p ack proof proofHeight).2 = s ∧
    (∀ s2, cleanupPacket env v s p proof proofHeight nsr ack = .err e s2 → s2 = s) ∧
    ((packetExecuted env s p oack).1 = .error e →
      (packetExecuted env s p oack).2.nextSequenceSend = s.nextSequenceSend ∧
      (packetExecuted env s p oack).2.nextSequenceRecv = s.nextSequenceRecv ∧
      (packetExecuted env s p oack).2.packetCommitment = s.packetCommitment ∧
      ∀ a b n, ¬(a = p.destPort ∧ b = p.destChannel ∧ n = p.sequence) →
        (packetExecuted env s p oack).2.packetAcknowledgement a b n
          = s.packetAcknowledgement a b n) := by
  refine ⟨sendPacket_error_store env s p e,
    recvPacket_store_eq env v s p proof proofHeight,
    acknowledgePacket_store_eq env v s p ack proof proofHeight,
    fun s2 h => cleanupPacket_err_store env v s p proof proofHeight nsr ack e s2 h,
    fun h => ?_⟩
  rcases packetExecuted_shape env s p oack with h1 | h2 | h3
  · rw [h] at h1; cases h1
  · rw [h2]; exact ⟨rfl, rfl, rfl, fun a b n _ => rfl⟩
  · rw [h3]
    exact ⟨rfl, rfl, rfl, fun a b n hne => if_neg hne⟩

/-- C2 witness: the rejected sample send on an empty store (no
`next_sequence_send` counter) leaves the store unchanged. -/
theorem packet_ops_atomicity_amended_witness :
    (sendPacket (envA .OPEN .ORDERED .OPEN) emptyStore samplePacket).2 = emptyStore :=
  (packet_ops_atomicity_amended (envA .OPEN .ORDERED .OPEN) acceptAll emptyStore
    samplePacket [] none 0 5 3 .sequenceSendNotFound).1 rfl

/-- The acknowledgement write leaves the `next_sequence_recv` keyspace
untouched. -/
theorem setPacketAcknowledgement_nextSequenceRecv (s : Store) (a b : String)
    (n : Nat) (c : List Nat) :
    (s.setPacketAcknowledgement a b n c).nextSequenceRecv = s.nextSequenceRecv := rfl

/-- Under the hypotheses that the destination channel exists and is
open, `packetExecuted` reduces to the acknowledgement write followed by
the ordering branch. -/
theorem packetExecuted_reduces (env : Env) (p : Packet) (channel : Channel)
    (oack : Option (List Nat))
    (hch : env.channels p.destPort p.destChannel = some channel)
    (hst : channel.state = .OPEN) (s : Store) :
    packetExecuted env s p oack =
      (let s1 :=
        if oack.isSome ∨ channel.ordering = .UNORDERED then
          s.setPacketAcknowledgement p.destPort p.destChannel p.sequence
            (commitAcknowledgement oack)
        else s
      if channel.ordering = .ORDERED then
        match s1.nextSequenceRecv p.destPort p.destChannel with
        | none => (.error .sequenceReceiveNotFound, s1)
        | some nextSeq =>
          if p.sequence ≠ nextSeq then
            (.error .invalidPacket, s1)
          else
            (.ok (), s1.setNextSequenceRecv p.destPort p.destChannel (nextSeq + 1))
      else
        (.ok (), s1)) := by
  have h1 : ¬ channel.state ≠ ChannelState.OPEN := by simp [hst]
  simp only [packetExecuted, hch, if_neg h1]

/-- C3: on an open ORDERED channel, `PacketExecuted` succeeds only when
`packet.sequence` equals the stored `next_sequence_recv` (an absent
counter yields `SequenceReceiveNotFound`, an out-of-order sequence
yields `InvalidPacket`), and on success the counter becomes its old
value plus one; on an open UNORDERED channel no sequence condition is
imposed — the call succeeds for every sequence — and
`next_sequence_recv` is never read or written: changing that keyspace
arbitrarily changes neither the outcome nor any other keyspace, and is
preserved verbatim in the result. -/
theorem packetExecuted_ordered_in_order (env : Env) (s : Store) (p : Packet)
    (oack : Option (List Nat)) (channel : Channel)
    (hch : env.channels p.destPort p.destChannel = some channel)
    (hst : channel.state = .OPEN) :
    (channel.ordering = .ORDERED →
      (s.nextSequenceRecv p.destPort p.destChannel = none →
        (packetExecuted env s p oack).1 = .error .sequenceReceiveNotFound) ∧
      (∀ n, s.nextSequenceRecv p.destPort p.destChannel = some n →
        (p.sequence ≠ n →
          (packetExecuted env s p oack).1 = .error .invalidPacket) ∧
        (p.sequence = n →
          (packetExecuted env s p oack).1 = .ok () ∧
          (packetExecuted env s p oack).2.nextSequenceRecv p.destPort p.destChannel
            = some (n + 1)))) ∧
    (channel.ordering = .UNORDERED →
      ∀ f, packetExecuted env { s with nextSequenceRecv := f } p oack
        = (.ok (), { (packetExecuted env s p oack).2 with nextSequenceRecv := f })) := by
  have key := packetExecuted_reduces env p channel oack hch hst
  constructor
  · intro hOrd
    constructor
    · intro hn
      by_cases hw : oack.isSome = true
      · rw [key s]
        simp [hOrd, hw, setPacketAcknowledgement_nextSequenceRecv, hn]
      · rw [key s]
        simp [hOrd, hw, hn]
    · intro n hn
      constructor
      · intro hne
        by_cases hw : oack.isSome = true
        · rw [key s]
          simp [hOrd, hw, setPacketAcknowledgement_nextSequenceRecv, hn, hne]
        · rw [key s]
          simp [hOrd, hw, hn, hne]
      · intro hseq
        by_cases hw : oack.isSome = true
        · rw [key s]
          simp [hOrd, hw, setPacketAcknowledgement_nextSequenceRecv, hn, hseq,
            Store.setNextSequenceRecv]
        · rw [key s]
          simp [hOrd, hw, hn, hseq, Store.setNextSequenceRecv]
  · intro hOrd f
    have hw : oack.isSome = true ∨ channel.ordering = Order.UNORDERED := .inr hOrd
    have hOrdNe : ¬ (channel.ordering = Order.ORDERED) := by
      rw [hOrd]; intro h; cases h
    rw [key { s with nextSequenceRecv := f }, key s]
    simp only [if_pos hw, if_neg hOrdNe]
    rfl

/-- C3 witness: on the open ordered receive-side channel with the
counter at 1, executing the sequence-1 sample packet succeeds. -/
theorem packetExecuted_ordered_in_order_witness :
    (packetExecuted (envB .OPEN .ORDERED .OPEN)
      { emptyStore with nextSequenceRecv := fun a b =>
          if a = "pt" ∧ b = "cB" then some 1 else none } samplePacket (some [9])).1
      = .ok () := by
  have h := packetExecuted_ordered_in_order (envB .OPEN .ORDERED .OPEN)
    { emptyStore with nextSequenceRecv := fun a b =>
        if a = "pt" ∧ b = "cB" then some 1 else none } samplePacket (some [9])
    (chanB .OPEN .ORDERED) rfl rfl
  exact (((h.1 rfl).2 1 rfl).2 rfl).1

/-- A store whose only entry is the send counter of `(pt, cA)` at 1. -/
def storeSendCounter : Store :=
  { emptyStore with nextSequenceSend := fun a b =>
      if a = "pt" ∧ b = "cA" then some 1 else none }

/-- A store whose only entry is the commitment of the sample packet. -/
def storeCommit : Store :=
  { emptyStore with packetCommitment := fun a b n =>
      if a = "pt" ∧ b = "cA" ∧ n = 1 then some (commitPacket [7]) else none }

/-- A sample packet that has already timed out relative to the client
height 10 of the sample registries. -/
def timedOutPacket : Packet :=
  { samplePacket with timeoutHeight := 5 }

/-- C4 counterexample: a channel in state `INIT` (not `OPEN`) still
lets `SendPacket` succeed — the source only rejects `CLOSED` — so the
claim that every packet-flow operation rejects any non-`OPEN` channel
is false for `SendPacket`. -/
theorem packet_flow_open_cex :
    (chanA .INIT .ORDERED).state = .INIT ∧
    (envA .INIT .ORDERED .OPEN).channels samplePacket.sourcePort
      samplePacket.sourceChannel = some (chanA .INIT .ORDERED) ∧
    (sendPacket (envA .INIT .ORDERED .OPEN) storeSendCounter samplePacket).1
      = .ok () :=
  ⟨rfl, rfl, rfl⟩

/-- C4 amended: `RecvPacket`, `PacketExecuted`, `AcknowledgePacket` and
`CleanupPacket` reject with `InvalidChannelState` whenever the channel
they look up is in any state other than `OPEN`; `SendPacket` rejects
only a `CLOSED` channel (with `InvalidChannelState`, given a
structurally valid packet) and lets `INIT` and `TRYOPEN` channels pass
its state check. -/
theorem packet_flow_open_amended (env : Env) (v : Verifier) (s : Store)
    (p : Packet) (ack : List Nat) (oack : Option (List Nat))
    (proof : CommitmentProof) (proofHeight nsr : Nat) :
    (∀ channel, env.channels p.destPort p.destChannel = some channel →
      channel.state ≠ .OPEN →
      (recvPacket env v s p proof proofHeight).1 = .error .invalidChannelState) ∧
    (∀ channel, env.channels p.destPort p.destChannel = some channel →
      channel.state ≠ .OPEN →
      (packetExecuted env s p oack).1 = .error .invalidChannelState) ∧
    (∀ channel, env.channels p.sourcePort p.sourceChannel = some channel →
      channel.state ≠ .OPEN →
      (acknowledgePacket env v s p ack proof proofHeight).1
        = .error .invalidChannelState) ∧
    (∀ channel, env.channels p.sourcePort p.sourceChannel = some channel →
      channel.state ≠ .OPEN →
      cleanupPacket env v s p proof proofHeight nsr ack
        = .err .invalidChannelState s) ∧
    (∀ channel, validateBasic p = none →
      env.channels p.sourcePort p.sourceChannel = some channel →
      channel.state = .CLOSED →
      sendPacket env s p = (.error .invalidChannelState, s)) := by
  refine ⟨fun channel hch hst => ?_, fun channel hch hst => ?_,
    fun channel hch hst => ?_, fun channel hch hst => ?_,
    fun channel hv hch hst => ?_⟩
  · simp [recvPacket, hch, if_pos hst]
  · simp [packetExecuted, hch, if_pos hst]
  · simp [acknowledgePacket, hch, if_pos hst]
  · simp [cleanupPacket, hch, if_pos hst]
  · simp [sendPacket, hv, hch, if_pos hst]

/-- C4 witness: receiving on the closed receive-side channel rejects
with `InvalidChannelState`. -/
theorem packet_flow_open_amended_witness :
    (recvPacket (envB .CLOSED .ORDERED .OPEN) acceptAll emptyStore samplePacket 0 5).1
      = .error .invalidChannelState :=
  (packet_flow_open_amended (envB .CLOSED .ORDERED .OPEN) acceptAll emptyStore
    samplePacket [] none 0 5 3).1 (chanB .CLOSED .ORDERED) rfl (by decide)

/-- C6: when `sendPacket`'s structural, channel, counterparty and
connection checks pass and the client state exists, a timeout height
that the client's latest height has already reached makes the call
fail with `PacketTimeout` and leave the store completely unchanged. -/
theorem sendPacket_timeout_precedence (env : Env) (s : Store) (p : Packet)
    (channel : Channel) (connectionEnd : ConnectionEnd) (clientState : ClientState)
    (hv : validateBasic p = none)
    (hch : env.channels p.sourcePort p.sourceChannel = some channel)
    (hst : channel.state ≠ .CLOSED)
    (hdp : p.destPort = channel.counterparty.portID)
    (hdc : p.destChannel = channel.counterparty.channelID)
    (hco : env.connections (channel.connectionHops.headD "") = some connectionEnd)
    (hcs : connectionEnd.state ≠ .UNINITIALIZED)
    (hcl : env.clients connectionEnd.clientID = some clientState)
    (hto : p.timeoutHeight ≤ clientState.latestHeight) :
    sendPacket env s p = (.error .packetTimeout, s) := by
  have h2 : ¬ p.destPort ≠ channel.counterparty.portID := by simp [hdp]
  have h3 : ¬ p.destChannel ≠ channel.counterparty.channelID := by simp [hdc]
  simp only [sendPacket, hv, hch, hco, hcl, if_neg hst, if_neg h2, if_neg h3,
    if_neg hcs, if_pos hto]

/-- C6 witness: a packet with timeout height 5 against a client at
height 10 is rejected with `PacketTimeout` and the store (with its
send counter in place) is unchanged. -/
theorem sendPacket_timeout_precedence_witness :
    sendPacket (envA .OPEN .ORDERED .OPEN) storeSendCounter timedOutPacket
      = (.error .packetTimeout, storeSendCounter) :=
  sendPacket_timeout_precedence (envA .OPEN .ORDERED .OPEN) storeSendCounter
    timedOutPacket (chanA .OPEN .ORDERED) { state := .OPEN, clientID := "cl" }
    { latestHeight := 10 } rfl rfl (by decide) rfl rfl rfl (by decide) rfl
    (by decide)

/-- A successful `cleanupPacket` returns exactly the input store with
the packet's commitment deleted. -/
theorem cleanupPacket_ok_store (env : Env) (v : Verifier) (s : Store) (p : Packet)
    (proof : CommitmentProof) (proofHeight nsr : Nat) (ack : List Nat)
    (q : Packet) (s2 : Store)
    (h : cleanupPacket env v s p proof proofHeight nsr ack = .ok q s2) :
    s2 = s.deletePacketCommitment p.sourcePort p.sourceChannel p.sequence := by
  unfold cleanupPacket at h
  (repeat' split at h) <;> (first | (cases h; rfl) | cases h)

/-- C5: once `acknowledgePacket`'s and `cleanupPacket`'s checks reach
the stored commitment, a commitment that is absent or differs from
`commit_packet(packet.data)` makes both fail with `InvalidPacket`
(store unchanged); `AcknowledgementExecuted` and a successful
`CleanupPacket` delete the commitment, so on the resulting store any
subsequent `AcknowledgePacket` or `CleanupPacket` for the same
sequence fails with `InvalidPacket`. -/
theorem resolution_at_most_once (env : Env) (v : Verifier) (s : Store)
    (p : Packet) (ack : List Nat) (proof : CommitmentProof)
    (proofHeight nsr : Nat) (channel : Channel) (connectionEnd : ConnectionEnd)
    (hch : env.channels p.sourcePort p.sourceChannel = some channel)
    (hst : channel.state = .OPEN)
    (hco : env.connections (channel.connectionHops.headD "") = some connectionEnd) :
    (∀ st : Store,
      st.packetCommitment p.sourcePort p.sourceChannel p.sequence
        ≠ some (commitPacket p.data) →
      (p.sourcePort = channel.counterparty.portID →
        p.sourceChannel = channel.counterparty.channelID →
        connectionEnd.state = .OPEN →
        acknowledgePacket env v st p ack proof proofHeight
          = (.error .invalidPacket, st)) ∧
      (p.destPort = channel.counterparty.portID →
        p.destChannel = channel.counterparty.channelID →
        p.sequence < nsr →
        cleanupPacket env v st p proof proofHeight nsr ack
          = .err .invalidPacket st)) ∧
    (acknowledgementExecuted s p).packetCommitment p.sourcePort p.sourceChannel
      p.sequence = none ∧
    (∀ q s2, cleanupPacket env v s p proof proofHeight nsr ack = .ok q s2 →
      s2.packetCommitment p.sourcePort p.sourceChannel p.sequence = none) ∧
    (p.sourcePort = channel.counterparty.portID →
      p.sourceChannel = channel.counterparty.channelID →
      connectionEnd.state = .OPEN →
      acknowledgePacket env v (acknowledgementExecuted s p) p ack proof proofHeight
        = (.error .invalidPacket, acknowledgementExecuted s p)) ∧
    (p.destPort = channel.counterparty.portID →
      p.destChannel = channel.counterparty.channelID →
      p.sequence < nsr →
      cleanupPacket env v (acknowledgementExecuted s p) p proof proofHeight nsr ack
        = .err .invalidPacket (acknowledgementExecuted s p)) ∧
    (∀ q s2, cleanupPacket env v s p proof proofHeight nsr ack = .ok q s2 →
      (p.sourcePort = channel.counterparty.portID →
        p.sourceChannel = channel.counterparty.channelID →
        connectionEnd.state = .OPEN →
        acknowledgePacket env v s2 p ack proof proofHeight
          = (.error .invalidPacket, s2)) ∧
      (p.destPort = channel.counterparty.portID →
        p.destChannel = channel.counterparty.channelID →
        p.sequence < nsr →
        cleanupPacket env v s2 p proof proofHeight nsr ack
          = .err .invalidPacket s2)) := by
  have hopen : ¬ channel.state ≠ ChannelState.OPEN := by simp [hst]
  have hdel : ∀ st : Store,
      (st.deletePacketCommitment p.sourcePort p.sourceChannel p.sequence).packetCommitment
        p.sourcePort p.sourceChannel p.sequence = none := by
    intro st
    simp [Store.deletePacketCommitment]
  have hmain : ∀ st : Store,
      st.packetCommitment p.sourcePort p.sourceChannel p.sequence
        ≠ some (commitPacket p.data) →
      (p.sourcePort = channel.counterparty.portID →
        p.sourceChannel = channel.counterparty.channelID →
        connectionEnd.state = .OPEN →
        acknowledgePacket env v st p ack proof proofHeight
          = (.error .invalidPacket, st)) ∧
      (p.destPort = channel.counterparty.portID →
        p.destChannel = channel.counterparty.channelID →
        p.sequence < nsr →
        cleanupPacket env v st p proof proofHeight nsr ack
          = .err .invalidPacket st) := by
    refine fun st hcm => ⟨fun hsp hsc hcs => ?_, fun hdp hdc hlt => ?_⟩
    · have h2 : ¬ p.sourcePort ≠ channel.counterparty.portID := by simp [hsp]
      have h3 : ¬ p.sourceChannel ≠ channel.counterparty.channelID := by simp [hsc]
      have h4 : ¬ connectionEnd.state ≠ ConnectionState.OPEN := by simp [hcs]
      simp only [acknowledgePacket, hch, hco, if_neg hopen, if_neg h2, if_neg h3,
        if_neg h4, if_pos hcm]
    · have h2 : ¬ p.destPort ≠ channel.counterparty.portID := by simp [hdp]
      have h3 : ¬ p.destChannel ≠ channel.counterparty.channelID := by simp [hdc]
      have h4 : ¬ nsr ≤ p.sequence := Nat.not_le.mpr hlt
      simp only [cleanupPacket, hch, hco, if_neg hopen, if_neg h2, if_neg h3,
        if_neg h4, if_pos hcm]
  have hgone : ∀ st : Store,
      st.packetCommitment p.sourcePort p.sourceChannel p.sequence = none →
      st.packetCommitment p.sourcePort p.sourceChannel p.sequence
        ≠ some (commitPacket p.data) := by
    intro st hn heq
    rw [hn] at heq
    cases heq
  refine ⟨hmain, hdel s, fun q s2 h => ?_, ?_, ?_, fun q s2 h => ?_⟩
  · rw [cleanupPacket_ok_store env v s p proof proofHeight nsr ack q s2 h]
    exact hdel s
  · exact (hmain (acknowledgementExecuted s p) (hgone _ (hdel s))).1
  · exact (hmain (acknowledgementExecuted s p) (hgone _ (hdel s))).2
  · have h2 : s2.packetCommitment p.sourcePort p.sourceChannel p.sequence = none := by
      rw [cleanupPacket_ok_store env v s p proof proofHeight nsr ack q s2 h]
      exact hdel s
    exact hmain s2 (hgone s2 h2)

/-- C5 witness: with the sample commitment store emptied by
`AcknowledgementExecuted`, the deleted entry reads back as absent. -/
theorem resolution_at_most_once_witness :
    (acknowledgementExecuted storeCommit samplePacket).packetCommitment "pt" "cA" 1
      = none :=
  (resolution_at_most_once (envA .OPEN .ORDERED .OPEN) acceptAll storeCommit
    samplePacket [] 0 5 2 (chanA .OPEN .ORDERED) { state := .OPEN, clientID := "cl" }
    rfl rfl rfl).2.1

/-- C7 counterexample: the sample packet's destination channel `cB`
names no channel in a registry that only knows `(pt, cA)` — a wrong
destination — yet `RecvPacket` fails with `ChannelNotFound`, not
`InvalidPacket`, so the claim that every wrong destination fails with
`InvalidPacket` is false at this input. -/
theorem recvPacket_wrong_dest_cex :
    (envA .OPEN .ORDERED .OPEN).channels samplePacket.destPort
      samplePacket.destChannel = none ∧
    (recvPacket (envA .OPEN .ORDERED .OPEN) acceptAll emptyStore samplePacket 0 5).1
      = .error .channelNotFound ∧
    ChannelError.channelNotFound ≠ ChannelError.invalidPacket :=
  ⟨rfl, rfl, by decide⟩

/-- C7 amended: a packet whose destination does not name the channel it
belongs to makes `RecvPacket` fail before any proof verification is
attempted — the result is the same for every verifier — with
`InvalidPacket` when the destination names an existing `OPEN` channel
whose counterparty is not the packet's source, and with
`ChannelNotFound` (no channel named) or `InvalidChannelState` (channel
not `OPEN`) otherwise. -/
theorem recvPacket_wrong_dest_amended (env : Env) (s : Store) (p : Packet)
    (proof : CommitmentProof) (proofHeight : Nat) :
    (env.channels p.destPort p.destChannel = none →
      ∀ v : Verifier, recvPacket env v s p proof proofHeight
        = (.error .channelNotFound, s)) ∧
    (∀ channel, env.channels p.destPort p.destChannel = some channel →
      channel.state ≠ .OPEN →
      ∀ v : Verifier, recvPacket env v s p proof proofHeight
        = (.error .invalidChannelState, s)) ∧
    (∀ channel, env.channels p.destPort p.destChannel = some channel →
      channel.state = .OPEN →
      (p.sourcePort ≠ channel.counterparty.portID ∨
        p.sourceChannel ≠ channel.counterparty.channelID) →
      ∀ v : Verifier, recvPacket env v s p proof proofHeight
        = (.error .invalidPacket, s)) := by
  refine ⟨fun hch v => ?_, fun channel hch hst v => ?_,
    fun channel hch hst hmis v => ?_⟩
  · simp [recvPacket, hch]
  · simp [recvPacket, hch, if_pos hst]
  · rcases hmis with hm | hm
    · simp [recvPacket, hch, hst, hm]
    · by_cases hsp : p.sourcePort = channel.counterparty.portID
      · simp [recvPacket, hch, hst, hsp, hm]
      · simp [recvPacket, hch, hst, hsp]

/-- C7 witness: a packet re-addressed to `(pt, cA)` — an existing open
channel that is not the channel the packet belongs to, since that
channel's counterparty is `(pt, cB)` — is rejected by `RecvPacket`
with `InvalidPacket` identically under the all-accepting verifier. -/
theorem recvPacket_wrong_dest_amended_witness :
    recvPacket (envA .OPEN .ORDERED .OPEN) acceptAll emptyStore
      { samplePacket with destPort := "pt", destChannel := "cA" } 0 5
      = (.error .invalidPacket, emptyStore) :=
  (recvPacket_wrong_dest_amended (envA .OPEN .ORDERED .OPEN) emptyStore
    { samplePacket with destPort := "pt", destChannel := "cA" } 0 5).2.2
    (chanA .OPEN .ORDERED) rfl rfl (.inr (by decide)) acceptAll

/-- C9: a `cleanupPacket` call that reaches the ordering branch with a
channel whose ordering is neither `ORDERED` nor `UNORDERED` (the Go
enum's `NONE`) ends in the fatal panic outcome rather than an ordinary
error; and whenever the channel's ordering is `ORDERED` or `UNORDERED`
the fatal outcome is unreachable. -/
theorem cleanupPacket_ordering_fatal (env : Env) (v : Verifier) (s : Store)
    (p : Packet) (proof : CommitmentProof) (proofHeight nsr : Nat)
    (ack : List Nat) :
    (∀ channel, env.channels p.sourcePort p.sourceChannel = some channel →
      channel.state = .OPEN →
      p.destPort = channel.counterparty.portID →
      p.destChannel = channel.counterparty.channelID →
      (∃ c, env.connections (channel.connectionHops.headD "") = some c) →
      p.sequence < nsr →
      s.packetCommitment p.sourcePort p.sourceChannel p.sequence
        = some (commitPacket p.data) →
      channel.ordering = .NONE →
      cleanupPacket env v s p proof proofHeight nsr ack
        = .fatal .invalidChannelOrdering) ∧
    (∀ channel, env.channels p.sourcePort p.sourceChannel = some channel →
      (channel.ordering = .ORDERED ∨ channel.ordering = .UNORDERED) →
      ∀ e, cleanupPacket env v s p proof proofHeight nsr ack ≠ .fatal e) := by
  constructor
  · rintro channel hch hst hdp hdc ⟨c, hco⟩ hlt hcm hord
    have hopen : ¬ channel.state ≠ ChannelState.OPEN := by simp [hst]
    have h2 : ¬ p.destPort ≠ channel.counterparty.portID := by simp [hdp]
    have h3 : ¬ p.destChannel ≠ channel.counterparty.channelID := by simp [hdc]
    have h4 : ¬ nsr ≤ p.sequence := Nat.not_le.mpr hlt
    have h5 : ¬ s.packetCommitment p.sourcePort p.sourceChannel p.sequence
        ≠ some (commitPacket p.data) := by simp [hcm]
    simp only [cleanupPacket, hch, hco, hord, if_neg hopen, if_neg h2, if_neg h3,
      if_neg h4, if_neg h5]
  · intro channel hch hord e hfatal
    unfold cleanupPacket at hfatal
    (repeat' split at hfatal) <;> simp_all

/-- C9 witness: on an open channel whose ordering is `NONE` with the
sample commitment in place, cleanup ends in the fatal outcome. -/
theorem cleanupPacket_ordering_fatal_witness :
    cleanupPacket (envA .OPEN .NONE .OPEN) acceptAll storeCommit samplePacket 0 5 2 []
      = .fatal .invalidChannelOrdering :=
  (cleanupPacket_ordering_fatal (envA .OPEN .NONE .OPEN) acceptAll storeCommit
    samplePacket 0 5 2 []).1 (chanA .OPEN .NONE) rfl rfl rfl rfl
    ⟨{ state := .OPEN, clientID := "cl" }, rfl⟩ (by decide) rfl rfl

/-- C10: `CleanupPacket` requires the first-hop connection to exist but
imposes no condition on its state — on a store where that connection is
in state `INIT` (not `OPEN`) and every other precondition holds, the
call succeeds and deletes the commitment — whereas `RecvPacket` and
`AcknowledgePacket` reject any non-`OPEN` connection with
`InvalidConnectionState`. -/
theorem cleanupPacket_ignores_connection_state :
    ((envA .OPEN .ORDERED .INIT).connections "cn"
        = some { state := .INIT, clientID := "cl" } ∧
      ConnectionState.INIT ≠ ConnectionState.OPEN ∧
      ∃ s2, cleanupPacket (envA .OPEN .ORDERED .INIT) acceptAll storeCommit
          samplePacket 0 5 2 [] = .ok samplePacket s2 ∧
        s2.packetCommitment "pt" "cA" 1 = none) ∧
    (∀ env : Env, ∀ v s p proof proofHeight channel connectionEnd,
      env.channels p.destPort p.destChannel = some channel →
      env.connections (channel.connectionHops.headD "") = some connectionEnd →
      connectionEnd.state ≠ .OPEN →
      channel.state = .OPEN →
      p.sourcePort = channel.counterparty.portID →
      p.sourceChannel = channel.counterparty.channelID →
      (recvPacket env v s p proof proofHeight).1
        = .error .invalidConnectionState) ∧
    (∀ env : Env, ∀ v s p ack proof proofHeight channel connectionEnd,
      env.channels p.sourcePort p.sourceChannel = some channel →
      env.connections (channel.connectionHops.headD "") = some connectionEnd →
      connectionEnd.state ≠ .OPEN →
      channel.state = .OPEN →
      p.sourcePort = channel.counterparty.portID →
      p.sourceChannel = channel.counterparty.channelID →
      (acknowledgePacket env v s p ack proof proofHeight).1
        = .error .invalidConnectionState) := by
  refine ⟨⟨rfl, by decide,
    storeCommit.deletePacketCommitment "pt" "cA" 1, rfl, rfl⟩,
    fun env v s p proof proofHeight channel connectionEnd
      hch hco hcs hst hsp hsc => ?_,
    fun env v s p ack proof proofHeight channel connectionEnd
      hch hco hcs hst hsp hsc => ?_⟩
  · have hopen : ¬ channel.state ≠ ChannelState.OPEN := by simp [hst]
    have h2 : ¬ p.sourcePort ≠ channel.counterparty.portID := by simp [hsp]
    have h3 : ¬ p.sourceChannel ≠ channel.counterparty.channelID := by simp [hsc]
    simp only [recvPacket, hch, hco, if_neg hopen, if_neg h2, if_neg h3, if_pos hcs]
  · have hopen : ¬ channel.state ≠ ChannelState.OPEN := by simp [hst]
    have h2 : ¬ p.sourcePort ≠ channel.counterparty.portID := by simp [hsp]
    have h3 : ¬ p.sourceChannel ≠ channel.counterparty.channelID := by simp [hsc]
    simp only [acknowledgePacket, hch, hco, if_neg hopen, if_neg h2, if_neg h3,
      if_pos hcs]

/-- C10 witness: receiving on the open receive-side channel whose
connection is in state `INIT` rejects with `InvalidConnectionState`. -/
theorem cleanupPacket_ignores_connection_state_witness :
    (recvPacket (envB .OPEN .ORDERED .INIT) acceptAll emptyStore samplePacket 0 5).1
      = .error .invalidConnectionState :=
  cleanupPacket_ignores_connection_state.2.1 (envB .OPEN .ORDERED .INIT) acceptAll
    emptyStore samplePacket 0 5 (chanB .OPEN .ORDERED)
    { state := .INIT, clientID := "cl" } rfl rfl (by decide) rfl rfl rfl

/-- C8: `RecvPacket` and `AcknowledgePacket` never mutate the store —
whether they succeed or fail, every keyspace is unchanged after the
call. -/
theorem recv_ack_never_mutate (env : Env) (v : Verifier) (s : Store) (p : Packet)
    (ack : List Nat) (proof : CommitmentProof) (proofHeight : Nat) :
    (recvPacket env v s p proof proofHeight).2 = s ∧
    (acknowledgePacket env v s p ack proof proofHeight).2 = s :=
  ⟨recvPacket_store_eq env v s p proof proofHeight,
    acknowledgePacket_store_eq env v s p ack proof proofHeight⟩

end IBC
